import Mathlib

/-!
# Verification of the Shopify → inFakt invoice integration (`src/app.py`)

Shallow embedding of the tax-line derivation and invoice-total reconciliation
logic of `app.py`.  Monetary values arriving as decimal strings are modelled as
exact rationals (`ℚ`); Python `Decimal` quantization with `ROUND_HALF_UP`
(ties away from zero) is modelled by `roundHalfUpZ`; integer grosze amounts are
`ℤ`.  Optional / absent JSON keys become `Option` fields.  Module-level
environment configuration (`INFAKT_ADJUSTMENT_TAX_SYMBOL`,
`INFAKT_ADJUSTMENT_NAME`, `INFAKT_FLAT_RATE_TAX_SYMBOL`, `ALLOW_TEST_ORDERS`)
becomes an explicit `Config` record whose `defaultConfig` holds the source's
defaults.
-/

namespace ShopifyInfakt

/-- Python `Decimal.quantize(Decimal("1"), rounding=ROUND_HALF_UP)`:
round a rational to the nearest integer, with ties going away from zero. -/
def roundHalfUpZ (q : ℚ) : ℤ :=
  if 0 ≤ q then ⌊q + 1/2⌋ else -⌊-q + 1/2⌋

/-- `d(value)` / `Decimal(str(value))` is the identity in the rational model;
`money_to_grosze` (`app.py` line 76): quantize to 0.01 half-up, then scale by
100, giving an exact integer number of grosze. -/
def money_to_grosze (value : ℚ) : ℤ :=
  roundHalfUpZ (value * 100)

/-- `pick_vat_rate` (`app.py` line 81): first tax line's rate when present and
parseable, else the fallback.  A tax line whose `rate` key is absent or not a
number is modelled as `none` (the source swallows the parse failure). -/
def pick_vat_rate (tax_lines : List (Option ℚ)) (fallback : ℚ) : ℚ :=
  match tax_lines with
  | [] => fallback
  | r :: _ => r.getD fallback

/-- `rate_to_tax_symbol` (`app.py` line 92): the rate times 100, rounded
half-up to an integer. -/
def rate_to_tax_symbol (rate : ℚ) : ℤ :=
  roundHalfUpZ (rate * 100)


/-!
## Data model

The Shopify order JSON is modelled with `Option` fields for keys that may be
absent (`none` = key missing or value `null`-like, so that `dict.get`
defaulting is explicit).  `discount_allocations` (on line items) and
`discounted_price` (on shipping lines) exist in the upstream payload but are
never read by `app.py`; they are kept in the model so that claims about them
can be stated.  Order `id` values are modelled by their decimal string (the
source only ever uses `str(order.get("id", ""))`).
-/

/-- One element of `order["line_items"]`, restricted to the keys `app.py`
reads plus `discount_allocations` (present upstream, unread by the source). -/
structure LineItem where
  title : Option String
  name : Option String
  quantity : ℤ
  price : Option ℚ
  tax_lines : List (Option ℚ)
  discount_allocations : List ℚ
deriving DecidableEq

/-- One element of `order["shipping_lines"]`, restricted to the keys `app.py`
reads plus `discounted_price` (present upstream, unread by the source). -/
structure ShippingLine where
  title : Option String
  price : Option ℚ
  discounted_price : Option ℚ
  tax_lines : List (Option ℚ)
deriving DecidableEq

/-- The order payload, restricted to the keys `app.py` reads in
`prepare_services` / `create_invoice` that the claims concern. -/
structure Order where
  id : Option String
  created_at : Option String
  processed_at : Option String
  cancelled_at : Option String
  financial_status : Option String
  test : Bool
  taxes_included : Bool
  currency : Option String
  total_price : Option ℚ
  line_items : List LineItem
  shipping_lines : List ShippingLine
deriving DecidableEq

/-- One element of the `services` list sent to inFakt (the dict built at
`app.py` lines 218-226 / 245-253 / 268-276).  `flat_rate_tax_symbol` is the
optional key added only when `INFAKT_FLAT_RATE_TAX_SYMBOL` is configured. -/
structure ServiceEntry where
  name : String
  tax_symbol : ℤ
  quantity : ℤ
  unit_net_price : ℤ
  flat_rate_tax_symbol : Option String
deriving DecidableEq

/-- The module-level environment configuration of `app.py` (lines 31-38),
passed explicitly.  `defaultConfig` is the source's defaults. -/
structure Config where
  adjustment_tax_symbol : ℤ
  adjustment_name : String
  flat_rate_tax_symbol : Option String
  allow_test_orders : Bool
deriving DecidableEq

def defaultConfig : Config :=
  { adjustment_tax_symbol := 23
    adjustment_name := "Wyrównanie (Shopify)"
    flat_rate_tax_symbol := none
    allow_test_orders := false }

/-- Python `a or b` on strings: `a` unless it is missing or empty. -/
def py_str_or (s : Option String) (dflt : String) : String :=
  match s with
  | some t => if t = "" then dflt else t
  | none => dflt

/-- `item.get("title") or item.get("name") or "Produkt"` (`app.py` line 219). -/
def line_name (item : LineItem) : String :=
  py_str_or item.title (py_str_or item.name "Produkt")

/-!
## `prepare_services` (`app.py` lines 194-278)

The source's loop bodies become per-element functions returning
`Option (entry × rate × gross)`: `none` when the element is skipped,
otherwise the emitted service entry, the VAT rate used to build it, and the
gross amount `gross_line` / `ship_gross` the source adds to
`calc_total_gross_grosze`.
-/

/-- Body of the products loop (`app.py` lines 201-226). -/
def line_item_service (cfg : Config) (taxes_included : Bool) (item : LineItem) :
    Option (ServiceEntry × ℚ × ℤ) :=
  if item.quantity ≤ 0 then none
  else
    let unit_price_grosze : ℤ := money_to_grosze (item.price.getD 0)
    let rate : ℚ := pick_vat_rate item.tax_lines (23/100)
    let tax_symbol : ℤ := rate_to_tax_symbol rate
    let unit_net_grosze : ℤ :=
      if taxes_included then roundHalfUpZ ((unit_price_grosze : ℚ) / (1 + rate))
      else unit_price_grosze
    let gross_line : ℤ :=
      roundHalfUpZ ((unit_net_grosze : ℚ) * (item.quantity : ℚ) * (1 + rate))
    some (⟨line_name item, tax_symbol, item.quantity, unit_net_grosze,
           cfg.flat_rate_tax_symbol⟩, rate, gross_line)

/-- Body of the shipping loop (`app.py` lines 229-253). -/
def shipping_service (cfg : Config) (taxes_included : Bool) (s : ShippingLine) :
    Option (ServiceEntry × ℚ × ℤ) :=
  let ship_price_grosze : ℤ := money_to_grosze (s.price.getD 0)
  if ship_price_grosze ≤ 0 then none
  else
    let ship_rate : ℚ := pick_vat_rate s.tax_lines (23/100)
    let ship_tax_symbol : ℤ := rate_to_tax_symbol ship_rate
    let ship_net_grosze : ℤ :=
      if taxes_included then roundHalfUpZ ((ship_price_grosze : ℚ) / (1 + ship_rate))
      else ship_price_grosze
    let ship_gross : ℤ := roundHalfUpZ ((ship_net_grosze : ℚ) * (1 + ship_rate))
    some (⟨"Wysyłka - " ++ py_str_or s.title "Dostawa", ship_tax_symbol, 1,
           ship_net_grosze, cfg.flat_rate_tax_symbol⟩, ship_rate, ship_gross)

/-- Products then shipping, in input order, skipped elements dropped. -/
def base_results (cfg : Config) (o : Order) : List (ServiceEntry × ℚ × ℤ) :=
  o.line_items.filterMap (line_item_service cfg o.taxes_included)
    ++ o.shipping_lines.filterMap (shipping_service cfg o.taxes_included)

/-- The `services` list before the reconciliation step. -/
def base_services (cfg : Config) (o : Order) : List ServiceEntry :=
  (base_results cfg o).map (fun p => p.1)

/-- `calc_total_gross_grosze` after both loops (`app.py` lines 198, 216, 243). -/
def calc_total_gross_grosze (cfg : Config) (o : Order) : ℤ :=
  ((base_results cfg o).map (fun p => p.2.2)).sum

/-- `total_gross_grosze = money_to_grosze(order.get("total_price", "0"))`
(`app.py` line 256). -/
def total_gross_grosze (o : Order) : ℤ :=
  money_to_grosze (o.total_price.getD 0)

/-- `diff_grosze = calc_total_gross_grosze - total_gross_grosze`
(`app.py` line 257). -/
def diff_grosze (cfg : Config) (o : Order) : ℤ :=
  calc_total_gross_grosze cfg o - total_gross_grosze o

/-- `adj_net` of the synthetic adjustment line (`app.py` lines 261-266). -/
def adjustment_net (cfg : Config) (diff : ℤ) : ℤ :=
  let adj_rate : ℚ := (cfg.adjustment_tax_symbol : ℚ) / 100
  let n : ℤ := roundHalfUpZ ((|diff| : ℚ) / (1 + adj_rate))
  if 0 < diff then -n else n

/-- The synthetic adjustment entry (`app.py` lines 268-276). -/
def adjustment_entry (cfg : Config) (diff : ℤ) : ServiceEntry :=
  ⟨cfg.adjustment_name, cfg.adjustment_tax_symbol, 1, adjustment_net cfg diff,
   cfg.flat_rate_tax_symbol⟩

/-- `prepare_services` (`app.py` lines 194-278): products, shipping, then the
adjustment entry when `abs(diff_grosze) >= 2`. -/
def prepare_services (cfg : Config) (o : Order) : List ServiceEntry :=
  if 2 ≤ |diff_grosze cfg o| then
    base_services cfg o ++ [adjustment_entry cfg (diff_grosze cfg o)]
  else
    base_services cfg o

/-!
## Recomputation of gross totals from emitted entries

`entry_gross` is the gross amount the downstream accounting API recomputes
from an emitted entry and its VAT rate: `unit_net_price × quantity × (1+rate)`
rounded half-up (spec section 4.1 step 3).  For product and shipping entries
it coincides with the `gross_line` / `ship_gross` the source accumulated,
which is proved below, not assumed.
-/

def entry_gross (e : ServiceEntry) (rate : ℚ) : ℤ :=
  roundHalfUpZ ((e.unit_net_price : ℚ) * (e.quantity : ℚ) * (1 + rate))

/-- All emitted entries, each paired with the VAT rate it was built from
(the adjustment entry's rate is `adjustment_tax_symbol / 100`). -/
def emitted_with_rates (cfg : Config) (o : Order) : List (ServiceEntry × ℚ) :=
  (base_results cfg o).map (fun p => (p.1, p.2.1))
    ++ (if 2 ≤ |diff_grosze cfg o| then
          [(adjustment_entry cfg (diff_grosze cfg o),
            (cfg.adjustment_tax_symbol : ℚ) / 100)]
        else [])

/-- The total the accounting API recomputes across all emitted entries. -/
def recomputed_total (cfg : Config) (o : Order) : ℤ :=
  ((emitted_with_rates cfg o).map (fun p => entry_gross p.1 p.2)).sum

/-!
## `create_invoice` (`app.py` lines 285-345), up to the outbound POST

Only the decision path and the payload fields the claims concern are
modelled; NIP extraction, billing-address mapping and the HTTP call itself
are outside every claim.
-/

/-- Python `str.lower()`, modelled on the character list (the statuses it is
applied to are ASCII). -/
def str_lower (s : String) : String :=
  String.mk (s.data.map Char.toLower)

/-- `should_skip_order` (`app.py` lines 144-155), over the three fields it
reads.  A present non-empty `cancelled_at` string is truthy. -/
def should_skip (cfg : Config) (cancelled_at financial_status : Option String)
    (tst : Bool) : Bool × String :=
  if (cancelled_at.getD "") ≠ "" then (true, "order_cancelled")
  else if str_lower (financial_status.getD "") = "voided" then (true, "financial_voided")
  else if tst && !cfg.allow_test_orders then (true, "test_order")
  else (false, "ok")

def should_skip_order (cfg : Config) (o : Order) : Bool × String :=
  should_skip cfg o.cancelled_at o.financial_status o.test

/-- `raw_date = order.get("processed_at") or order.get("created_at") or ""`
then `raw_date.split("T")[0] if "T" in raw_date else utcnow` (`app.py`
lines 313-314); `none` models the runtime current-date fallback. -/
def sell_date_of (processed_at created_at : Option String) : Option String :=
  let rd := py_str_or processed_at (py_str_or created_at "")
  if rd.data.contains 'T' then
    some (String.mk (rd.data.takeWhile (fun c => decide (c ≠ 'T'))))
  else none

/-- The invoice payload fields the claims concern (`app.py` lines 316-336). -/
structure InvoicePayload where
  external_id : String
  sell_date : Option String
  currency : String
  services : List ServiceEntry
deriving DecidableEq

/-- `create_invoice` up to the POST: `none` when the order is skipped or not
paid (nothing is sent), otherwise `some` of the payload handed to
`infakt_post`.  Note `external_id := str(order.get("id", ""))`. -/
def create_invoice_payload (cfg : Config) (o : Order) : Option InvoicePayload :=
  if (should_skip_order cfg o).1 then none
  else
    let fs := str_lower (o.financial_status.getD "")
    if fs = "paid" ∨ fs = "partially_paid" then
      some { external_id := o.id.getD ""
             sell_date := sell_date_of o.processed_at o.created_at
             currency := o.currency.getD "PLN"
             services := prepare_services cfg o }
    else none

/-!
## Raw-value model: exception propagation on non-numeric prices

`Decimal(str(value))` inside `money_to_grosze` raises
`decimal.InvalidOperation` on a non-numeric value, and nothing in `app.py`
catches it.  To state claims about that failure mode, the same
`prepare_services` / `create_invoice` path is embedded once more with
line-item and order-total prices as `RawMoney` and the exception as
`Except.error`.
-/

/-- A monetary JSON value as received: key absent (`dict.get` default `"0"`
applies), a numeric decimal, or a non-numeric value on which
`Decimal(str(value))` raises. -/
inductive RawMoney where
  | absent : RawMoney
  | num : ℚ → RawMoney
  | invalid : RawMoney
deriving DecidableEq

def money_to_grosze_raw : RawMoney → Except Unit ℤ
  | .absent => .ok (money_to_grosze 0)
  | .num q => .ok (money_to_grosze q)
  | .invalid => .error ()

structure RawLineItem where
  title : Option String
  name : Option String
  quantity : ℤ
  price : RawMoney
  tax_lines : List (Option ℚ)
deriving DecidableEq

structure RawOrder where
  id : Option String
  created_at : Option String
  processed_at : Option String
  cancelled_at : Option String
  financial_status : Option String
  test : Bool
  taxes_included : Bool
  currency : Option String
  total_price : RawMoney
  line_items : List RawLineItem
  shipping_lines : List ShippingLine
deriving DecidableEq

/-- Products-loop body (`app.py` lines 201-226) with exception propagation:
the quantity guard runs before the price is parsed, exactly as in the
source. -/
def line_item_service_raw (cfg : Config) (ti : Bool) (item : RawLineItem) :
    Except Unit (Option (ServiceEntry × ℤ)) :=
  if item.quantity ≤ 0 then .ok none
  else
    match money_to_grosze_raw item.price with
    | .error e => .error e
    | .ok unit_price_grosze =>
      let rate : ℚ := pick_vat_rate item.tax_lines (23/100)
      let tax_symbol : ℤ := rate_to_tax_symbol rate
      let unit_net_grosze : ℤ :=
        if ti then roundHalfUpZ ((unit_price_grosze : ℚ) / (1 + rate))
        else unit_price_grosze
      let gross_line : ℤ :=
        roundHalfUpZ ((unit_net_grosze : ℚ) * (item.quantity : ℚ) * (1 + rate))
      .ok (some (⟨py_str_or item.title (py_str_or item.name "Produkt"), tax_symbol,
                 item.quantity, unit_net_grosze, cfg.flat_rate_tax_symbol⟩, gross_line))

/-- The products loop: the first raised exception aborts the whole request. -/
def raw_items_loop (cfg : Config) (ti : Bool) :
    List RawLineItem → Except Unit (List (ServiceEntry × ℤ))
  | [] => .ok []
  | i :: rest =>
    match line_item_service_raw cfg ti i with
    | .error e => .error e
    | .ok r =>
      match raw_items_loop cfg ti rest with
      | .error e => .error e
      | .ok rs => .ok (r.toList ++ rs)

/-- `prepare_services` over a raw order (same algorithm as
`prepare_services`, with the two raw price reads able to raise). -/
def prepare_services_raw (cfg : Config) (o : RawOrder) :
    Except Unit (List ServiceEntry) :=
  match raw_items_loop cfg o.taxes_included o.line_items with
  | .error e => .error e
  | .ok items =>
    let ships := (o.shipping_lines.filterMap (shipping_service cfg o.taxes_included)).map
      (fun p => (p.1, p.2.2))
    let results := items ++ ships
    match money_to_grosze_raw o.total_price with
    | .error e => .error e
    | .ok total =>
      let diff := (results.map (fun p => p.2)).sum - total
      if 2 ≤ |diff| then .ok (results.map (fun p => p.1) ++ [adjustment_entry cfg diff])
      else .ok (results.map (fun p => p.1))

/-- `create_invoice` over a raw order: `none` = skipped or unpaid (nothing
sent); `some (.error _)` = unhandled exception while building (nothing sent);
`some (.ok p)` = payload `p` is POSTed to the accounting API. -/
def create_invoice_raw (cfg : Config) (o : RawOrder) :
    Option (Except Unit InvoicePayload) :=
  if (should_skip cfg o.cancelled_at o.financial_status o.test).1 then none
  else
    let fs := str_lower (o.financial_status.getD "")
    if fs = "paid" ∨ fs = "partially_paid" then
      some (match prepare_services_raw cfg o with
            | .error e => .error e
            | .ok s => .ok { external_id := o.id.getD ""
                             sell_date := sell_date_of o.processed_at o.created_at
                             currency := o.currency.getD "PLN"
                             services := s })
    else none

/-!
## Definitions following the spec's words (for refutation only)

These two definitions are *not* translations of the source; they formalise
what the spec sentences behind C3 and C7 assert, so the source behaviour can
be compared against them.
-/

/-- Modelled from the spec (C3): line gross = (unit_price × quantity) minus
the sum of discount allocation amounts when allocations are present, else
unit_price × quantity, in grosze. -/
def spec_line_gross (item : LineItem) : ℤ :=
  if item.discount_allocations ≠ [] then
    money_to_grosze ((item.price.getD 0) * (item.quantity : ℚ)
      - item.discount_allocations.sum)
  else
    money_to_grosze ((item.price.getD 0) * (item.quantity : ℚ))

/-- Modelled from the spec (C7): the shipping price the builder allegedly
uses — `discounted_price` in preference to the list price when both exist. -/
def spec_ship_preferred_price (s : ShippingLine) : ℚ :=
  s.discounted_price.getD (s.price.getD 0)

/-!
## Concrete inputs used by witnesses and counterexamples
-/

/-- The spec section 8 worked example: one Widget, quantity 2, 12.30 gross
each at 23% included tax, order total 24.60. -/
def exampleOrder : Order :=
  { id := some "1001", created_at := some "2024-01-01T00:00:00Z"
    processed_at := none, cancelled_at := none, financial_status := some "paid"
    test := false, taxes_included := true, currency := some "PLN"
    total_price := some (246/10)
    line_items := [{ title := some "Widget", name := none, quantity := 2
                     price := some (123/10), tax_lines := [some (23/100)]
                     discount_allocations := [] }]
    shipping_lines := [] }

/-- No line items, `total_price = "0.03"`: the computed total falls 3 grosze
short of `total_price` (`diff_grosze = -3`). -/
def shortfallOrder : Order :=
  { id := none, created_at := none, processed_at := none, cancelled_at := none
    financial_status := some "paid", test := false, taxes_included := false
    currency := none, total_price := some (3/100)
    line_items := [], shipping_lines := [] }

/-- One tax-exclusive 10.00 line at 23%: computed gross 12.30, while
`total_price = "12.33"` overstates it by exactly 3 grosze. -/
def overstatedOrder : Order :=
  { id := none, created_at := none, processed_at := none, cancelled_at := none
    financial_status := some "paid", test := false, taxes_included := false
    currency := none, total_price := some (1233/100)
    line_items := [{ title := some "Gadget", name := none, quantity := 1
                     price := some 10, tax_lines := [some (23/100)]
                     discount_allocations := [] }]
    shipping_lines := [] }

/-- A line item carrying a 5.00 discount allocation (price 10.00, zero
rate, tax-exclusive context). -/
def discountItem : LineItem :=
  { title := some "Artykuł", name := none, quantity := 1
    price := some 10, tax_lines := [some 0], discount_allocations := [5] }

/-- Paid order with no `id` and no dates at all. -/
def noIdOrder : Order :=
  { id := none, created_at := none, processed_at := none, cancelled_at := none
    financial_status := some "paid", test := false, taxes_included := false
    currency := none, total_price := some (123/10)
    line_items := [{ title := some "Towar", name := none, quantity := 1
                     price := some 10, tax_lines := [some (23/100)]
                     discount_allocations := [] }]
    shipping_lines := [] }

/-- A retained line item whose price is a non-numeric string. -/
def invalidPriceItem : RawLineItem :=
  { title := some "Zepsuty", name := none, quantity := 1
    price := RawMoney.invalid, tax_lines := [some (23/100)] }

/-- Paid raw order whose only line item has a non-numeric price. -/
def invalidPriceOrder : RawOrder :=
  { id := some "7", created_at := some "2024-01-01T00:00:00Z"
    processed_at := none, cancelled_at := none, financial_status := some "paid"
    test := false, taxes_included := false, currency := none
    total_price := RawMoney.num (123/10)
    line_items := [invalidPriceItem], shipping_lines := [] }

/-- Shipping line with list price 10.00 but discounted price 0.00. -/
def discountedShipLine : ShippingLine :=
  { title := none, price := some 10, discounted_price := some 0
    tax_lines := [some (23/100)] }

/-- Order containing only `discountedShipLine`; `total_price` matches the
gross computed from the (list) price, so no adjustment fires. -/
def discountedShipOrder : Order :=
  { id := none, created_at := none, processed_at := none, cancelled_at := none
    financial_status := some "paid", test := false, taxes_included := false
    currency := none, total_price := some (123/10)
    line_items := [], shipping_lines := [discountedShipLine] }

/-- Order with a single zero-rate line item (10.00 tax-exclusive). -/
def zeroRateOrder : Order :=
  { id := none, created_at := none, processed_at := none, cancelled_at := none
    financial_status := some "paid", test := false, taxes_included := false
    currency := none, total_price := some 10
    line_items := [{ title := some "Ebook", name := none, quantity := 1
                     price := some 10, tax_lines := [some 0]
                     discount_allocations := [] }]
    shipping_lines := [] }

/-- Order mixing a quantity-0 line item with a normal one. -/
def qtyZeroOrder : Order :=
  { id := none, created_at := none, processed_at := none, cancelled_at := none
    financial_status := some "paid", test := false, taxes_included := false
    currency := none, total_price := some (123/10)
    line_items := [{ title := some "Gratis", name := none, quantity := 0
                     price := some 99, tax_lines := [some (23/100)]
                     discount_allocations := [] },
                   { title := some "Towar", name := none, quantity := 1
                     price := some 10, tax_lines := [some (23/100)]
                     discount_allocations := [] }]
    shipping_lines := [] }

section RoundLemmas

theorem roundHalfUpZ_of_nonneg {q : ℚ} (h : 0 ≤ q) :
    roundHalfUpZ q = ⌊q + 1/2⌋ := if_pos h

theorem floor_half_eq_zero : ⌊(1 : ℚ)/2⌋ = 0 := by
  rw [Int.floor_eq_iff]; norm_num

theorem floor_inv_two_eq_zero : ⌊(2⁻¹ : ℚ)⌋ = 0 := by
  rw [Int.floor_eq_iff]; norm_num

theorem roundHalfUpZ_neg_eq (q : ℚ) : roundHalfUpZ (-q) = -roundHalfUpZ q := by
  rcases lt_trichotomy q 0 with h | h | h
  · rw [roundHalfUpZ, roundHalfUpZ, if_pos (by linarith), if_neg (by linarith), neg_neg]
  · subst h; simp [roundHalfUpZ, floor_inv_two_eq_zero]
  · rw [roundHalfUpZ, roundHalfUpZ, if_neg (by linarith), if_pos (le_of_lt h), neg_neg]

theorem roundHalfUpZ_sub_abs_le (q : ℚ) : |(roundHalfUpZ q : ℚ) - q| ≤ 1/2 := by
  rcases le_or_lt 0 q with h | h
  · rw [roundHalfUpZ_of_nonneg h]
    have h1 : (⌊q + 1/2⌋ : ℚ) ≤ q + 1/2 := Int.floor_le _
    have h2 : q + 1/2 < (⌊q + 1/2⌋ : ℚ) + 1 := Int.lt_floor_add_one _
    rw [abs_le]; constructor <;> linarith
  · rw [roundHalfUpZ, if_neg (by linarith)]
    have h1 : (⌊-q + 1/2⌋ : ℚ) ≤ -q + 1/2 := Int.floor_le _
    have h2 : -q + 1/2 < (⌊-q + 1/2⌋ : ℚ) + 1 := Int.lt_floor_add_one _
    rw [abs_le]; push_cast; constructor <;> linarith

theorem roundHalfUpZ_intCast (n : ℤ) : roundHalfUpZ (n : ℚ) = n := by
  rcases le_or_lt 0 n with h | h
  · rw [roundHalfUpZ_of_nonneg (by exact_mod_cast h), add_comm, Int.floor_add_int,
      floor_half_eq_zero]
    omega
  · rw [roundHalfUpZ, if_neg (not_le.mpr (by exact_mod_cast h)), ← Int.cast_neg, add_comm,
      Int.floor_add_int, floor_half_eq_zero]
    omega

theorem one_le_roundHalfUpZ {q : ℚ} (h : 1 ≤ q) : 1 ≤ roundHalfUpZ q := by
  rw [roundHalfUpZ_of_nonneg (by linarith)]
  exact Int.le_floor.mpr (by push_cast; linarith)

end RoundLemmas

section GrossLemmas

theorem entry_gross_line {cfg : Config} {ti : Bool} {item : LineItem}
    {p : ServiceEntry × ℚ × ℤ} (h : line_item_service cfg ti item = some p) :
    entry_gross p.1 p.2.1 = p.2.2 := by
  unfold line_item_service at h
  split at h
  · exact absurd h (by simp)
  · obtain rfl := Option.some.inj h
    rfl

theorem entry_gross_ship {cfg : Config} {ti : Bool} {s : ShippingLine}
    {p : ServiceEntry × ℚ × ℤ} (h : shipping_service cfg ti s = some p) :
    entry_gross p.1 p.2.1 = p.2.2 := by
  simp only [shipping_service] at h
  by_cases hp : money_to_grosze (s.price.getD 0) ≤ 0
  · rw [if_pos hp] at h
    exact absurd h (by simp)
  · rw [if_neg hp] at h
    obtain rfl := Option.some.inj h
    unfold entry_gross
    norm_num

theorem recomputed_base (cfg : Config) (o : Order) :
    ((base_results cfg o).map (fun p => entry_gross p.1 p.2.1)).sum
      = calc_total_gross_grosze cfg o := by
  unfold calc_total_gross_grosze
  refine congrArg List.sum (List.map_congr_left ?_)
  intro p hp
  unfold base_results at hp
  rcases List.mem_append.1 hp with h | h
  · rcases List.mem_filterMap.1 h with ⟨a, _, ha⟩
    exact entry_gross_line ha
  · rcases List.mem_filterMap.1 h with ⟨a, _, ha⟩
    exact entry_gross_ship ha

theorem recomputed_total_eq (cfg : Config) (o : Order) :
    recomputed_total cfg o = calc_total_gross_grosze cfg o +
      (if 2 ≤ |diff_grosze cfg o| then
         entry_gross (adjustment_entry cfg (diff_grosze cfg o))
           ((cfg.adjustment_tax_symbol : ℚ) / 100)
       else 0) := by
  unfold recomputed_total emitted_with_rates
  rw [List.map_append, List.sum_append]
  congr 1
  · rw [List.map_map]
    exact recomputed_base cfg o
  · split <;> simp

/-- Core rounding bound: reconstructing a target `x ≥ 0` as
`round(round(x/(1+r))·(1+r))` lands within one unit of `x`, for any
rate `0 ≤ r ≤ 1`. -/
theorem adj_gross_close {x : ℤ} {r : ℚ} (hr0 : 0 ≤ r) (hr1 : r ≤ 1) :
    |roundHalfUpZ ((roundHalfUpZ ((x : ℚ) / (1 + r)) : ℚ) * (1 + r)) - x| ≤ 1 := by
  have h1p : (0 : ℚ) < 1 + r := by linarith
  have hb1 : |(roundHalfUpZ ((x : ℚ) / (1 + r)) : ℚ) - (x : ℚ) / (1 + r)| ≤ 1/2 :=
    roundHalfUpZ_sub_abs_le _
  have hkey : ((x : ℚ) / (1 + r)) * (1 + r) = (x : ℚ) :=
    div_mul_cancel₀ _ (ne_of_gt h1p)
  have hb2 : |(roundHalfUpZ ((x : ℚ) / (1 + r)) : ℚ) * (1 + r) - (x : ℚ)| ≤ (1 + r)/2 := by
    have e : (roundHalfUpZ ((x : ℚ) / (1 + r)) : ℚ) * (1 + r) - (x : ℚ)
        = ((roundHalfUpZ ((x : ℚ) / (1 + r)) : ℚ) - (x : ℚ) / (1 + r)) * (1 + r) := by
      rw [sub_mul, hkey]
    rw [e, abs_mul, abs_of_pos h1p]
    calc |(roundHalfUpZ ((x : ℚ) / (1 + r)) : ℚ) - (x : ℚ) / (1 + r)| * (1 + r)
        ≤ (1/2) * (1 + r) := mul_le_mul_of_nonneg_right hb1 (le_of_lt h1p)
      _ = (1 + r)/2 := by ring
  have hb3 : |(roundHalfUpZ ((roundHalfUpZ ((x : ℚ) / (1 + r)) : ℚ) * (1 + r)) : ℚ)
      - (roundHalfUpZ ((x : ℚ) / (1 + r)) : ℚ) * (1 + r)| ≤ 1/2 :=
    roundHalfUpZ_sub_abs_le _
  have hb4 : |(roundHalfUpZ ((roundHalfUpZ ((x : ℚ) / (1 + r)) : ℚ) * (1 + r)) : ℚ)
      - (x : ℚ)| < 2 := by
    calc |(roundHalfUpZ ((roundHalfUpZ ((x : ℚ) / (1 + r)) : ℚ) * (1 + r)) : ℚ) - (x : ℚ)|
        ≤ _ + _ := abs_sub_le _ ((roundHalfUpZ ((x : ℚ) / (1 + r)) : ℚ) * (1 + r)) _
      _ ≤ 1/2 + (1 + r)/2 := add_le_add hb3 hb2
      _ < 2 := by linarith
  have hb5 : |roundHalfUpZ ((roundHalfUpZ ((x : ℚ) / (1 + r)) : ℚ) * (1 + r)) - x| < 2 := by
    exact_mod_cast hb4
  omega

/-- The recomputed gross of the adjustment entry, in closed form. -/
theorem entry_gross_adjustment (cfg : Config) (diff : ℤ) :
    entry_gross (adjustment_entry cfg diff) ((cfg.adjustment_tax_symbol : ℚ) / 100)
      = (if 0 < diff then
          -roundHalfUpZ ((roundHalfUpZ ((|diff| : ℚ)
              / (1 + (cfg.adjustment_tax_symbol : ℚ) / 100)) : ℚ)
            * (1 + (cfg.adjustment_tax_symbol : ℚ) / 100))
         else
          roundHalfUpZ ((roundHalfUpZ ((|diff| : ℚ)
              / (1 + (cfg.adjustment_tax_symbol : ℚ) / 100)) : ℚ)
            * (1 + (cfg.adjustment_tax_symbol : ℚ) / 100))) := by
  unfold entry_gross adjustment_entry adjustment_net
  simp only [Int.cast_one, mul_one]
  split
  · rw [Int.cast_neg, neg_mul, roundHalfUpZ_neg_eq]
  · rfl

/-- Adding the adjustment entry's recomputed gross to the residual `d`
leaves at most one grosz, for any adjustment symbol between 0 and 100. -/
theorem adjustment_closes (cfg : Config) (d : ℤ)
    (h0 : 0 ≤ cfg.adjustment_tax_symbol) (h1 : cfg.adjustment_tax_symbol ≤ 100) :
    |d + entry_gross (adjustment_entry cfg d)
        ((cfg.adjustment_tax_symbol : ℚ) / 100)| ≤ 1 := by
  have hr0 : (0 : ℚ) ≤ (cfg.adjustment_tax_symbol : ℚ) / 100 := by positivity
  have hr1 : (cfg.adjustment_tax_symbol : ℚ) / 100 ≤ 1 := by
    rw [div_le_one (by norm_num)]
    exact_mod_cast h1
  rw [entry_gross_adjustment]
  rcases lt_or_le 0 d with hd | hd
  · rw [if_pos hd, abs_of_pos (show (0 : ℚ) < (d : ℚ) from by exact_mod_cast hd)]
    have h2 := adj_gross_close (x := d) hr0 hr1
    generalize hG : roundHalfUpZ ((roundHalfUpZ ((d : ℚ)
        / (1 + (cfg.adjustment_tax_symbol : ℚ) / 100)) : ℚ)
      * (1 + (cfg.adjustment_tax_symbol : ℚ) / 100)) = G at h2 ⊢
    rw [show d + -G = -(G - d) from by ring, abs_neg]
    exact h2
  · rw [if_neg (not_lt.2 hd), abs_of_nonpos (show (d : ℚ) ≤ 0 from by exact_mod_cast hd),
      show -(d : ℚ) = ((-d : ℤ) : ℚ) from by push_cast; ring]
    have h2 := adj_gross_close (x := -d) hr0 hr1
    generalize hG : roundHalfUpZ ((roundHalfUpZ (((-d : ℤ) : ℚ)
        / (1 + (cfg.adjustment_tax_symbol : ℚ) / 100)) : ℚ)
      * (1 + (cfg.adjustment_tax_symbol : ℚ) / 100)) = G at h2 ⊢
    rw [show d + G = G - -d from by ring]
    exact h2

end GrossLemmas

/-!
## Claim theorems
-/

/-- C1: for every Order, after the optional adjustment entry is included, the
sum over all emitted service entries of the recomputed gross amount
(`unit_net_price × quantity × (1 + rate)`, rounded half-up) differs from the
order's `total_price` in grosze by at most 1, for any configured adjustment
tax symbol between 0 and 100 (the source default is 23). -/
theorem c1_recomputed_total_within_one (cfg : Config) (o : Order)
    (h0 : 0 ≤ cfg.adjustment_tax_symbol) (h1 : cfg.adjustment_tax_symbol ≤ 100) :
    |recomputed_total cfg o - total_gross_grosze o| ≤ 1 := by
  rw [recomputed_total_eq]
  by_cases hc : 2 ≤ |diff_grosze cfg o|
  · rw [if_pos hc]
    have heq : calc_total_gross_grosze cfg o +
        entry_gross (adjustment_entry cfg (diff_grosze cfg o))
          ((cfg.adjustment_tax_symbol : ℚ) / 100)
        - total_gross_grosze o
        = diff_grosze cfg o +
          entry_gross (adjustment_entry cfg (diff_grosze cfg o))
            ((cfg.adjustment_tax_symbol : ℚ) / 100) := by
      unfold diff_grosze
      ring
    rw [heq]
    exact adjustment_closes cfg _ h0 h1
  · rw [if_neg hc, add_zero]
    have h := not_le.1 hc
    unfold diff_grosze at h
    omega

/-- Witness for C1: the default configuration and the spec's worked example. -/
theorem c1_witness :
    0 ≤ defaultConfig.adjustment_tax_symbol
    ∧ defaultConfig.adjustment_tax_symbol ≤ 100
    ∧ |recomputed_total defaultConfig exampleOrder - total_gross_grosze exampleOrder| ≤ 1 :=
  ⟨by norm_num [defaultConfig], by norm_num [defaultConfig],
   c1_recomputed_total_within_one defaultConfig exampleOrder
     (by norm_num [defaultConfig]) (by norm_num [defaultConfig])⟩

/-- C5: `prepare_services` is a pure function of the configuration and the
order value — two calls on equal Orders yield equal output.  (Freedom from
side effects is inherent to the embedding: the source function only reads its
argument and module constants, modelled here as the explicit `cfg`.) -/
theorem c5_deterministic (cfg : Config) (o o' : Order) (h : o = o') :
    prepare_services cfg o = prepare_services cfg o' := by
  rw [h]

/-- Witness for C5 at the worked example. -/
theorem c5_witness :
    prepare_services defaultConfig exampleOrder
      = prepare_services defaultConfig exampleOrder :=
  c5_deterministic defaultConfig exampleOrder exampleOrder rfl

/-- C10: the output of `prepare_services` is the retained line-item entries in
input order, then the retained shipping entries in input order, then at most
one adjustment entry, which, when present, is last. -/
theorem c10_output_shape (cfg : Config) (o : Order) :
    prepare_services cfg o =
      (o.line_items.filterMap (line_item_service cfg o.taxes_included)).map (fun p => p.1)
      ++ (o.shipping_lines.filterMap (shipping_service cfg o.taxes_included)).map (fun p => p.1)
      ++ (if 2 ≤ |diff_grosze cfg o| then [adjustment_entry cfg (diff_grosze cfg o)] else [])
    ∧ (if 2 ≤ |diff_grosze cfg o| then [adjustment_entry cfg (diff_grosze cfg o)]
       else ([] : List ServiceEntry)).length ≤ 1 := by
  constructor
  · unfold prepare_services base_services base_results
    rw [List.map_append, List.append_assoc]
    split <;> simp
  · split <;> simp

theorem line_item_service_none_of_nonpos {cfg : Config} {ti : Bool}
    {item : LineItem} (h : item.quantity ≤ 0) :
    line_item_service cfg ti item = none := by
  unfold line_item_service
  rw [if_pos h]

theorem filterMap_line_filter (cfg : Config) (ti : Bool) (l : List LineItem) :
    (l.filter (fun i => decide (0 < i.quantity))).filterMap (line_item_service cfg ti)
      = l.filterMap (line_item_service cfg ti) := by
  induction l with
  | nil => rfl
  | cons a as ih =>
    by_cases h : 0 < a.quantity
    · rw [List.filter_cons_of_pos (by simpa using h), List.filterMap_cons,
        List.filterMap_cons, ih]
    · rw [List.filter_cons_of_neg (by simpa using h), List.filterMap_cons,
        line_item_service_none_of_nonpos (by omega), ih]

/-- C9: line items with quantity ≤ 0 never produce a service entry — deleting
them from the order leaves the output of `prepare_services` unchanged, and the
loop body maps each of them to `none`. -/
theorem c9_qty_nonpos_no_entry (cfg : Config) (o : Order) :
    prepare_services cfg o
      = prepare_services cfg
          { o with line_items := o.line_items.filter (fun i => decide (0 < i.quantity)) }
    ∧ ∀ i ∈ o.line_items, i.quantity ≤ 0 →
        line_item_service cfg o.taxes_included i = none := by
  constructor
  · have hbase :
        base_results cfg
            { o with line_items := o.line_items.filter (fun i => decide (0 < i.quantity)) }
          = base_results cfg o := by
      unfold base_results
      rw [filterMap_line_filter]
    unfold prepare_services diff_grosze calc_total_gross_grosze base_services
      total_gross_grosze
    rw [hbase]
  · intro i _ hq
    exact line_item_service_none_of_nonpos hq

/-- Witness for C9 at `qtyZeroOrder`, whose first line item has quantity 0. -/
theorem c9_witness :
    line_item_service defaultConfig qtyZeroOrder.taxes_included
        { title := some "Gratis", name := none, quantity := 0
          price := some 99, tax_lines := [some (23/100)]
          discount_allocations := [] }
      = none :=
  (c9_qty_nonpos_no_entry defaultConfig qtyZeroOrder).2
    _ (by simp [qtyZeroOrder]) (by norm_num)

theorem one_le_adjustment_n (cfg : Config) {d : ℤ} (hd : 2 ≤ |d|)
    (h0 : 0 ≤ cfg.adjustment_tax_symbol) (h1 : cfg.adjustment_tax_symbol ≤ 100) :
    1 ≤ roundHalfUpZ (|(d : ℚ)| / (1 + (cfg.adjustment_tax_symbol : ℚ) / 100)) := by
  have hr1 : (cfg.adjustment_tax_symbol : ℚ) / 100 ≤ 1 := by
    rw [div_le_one (by norm_num)]
    exact_mod_cast h1
  apply one_le_roundHalfUpZ
  have h2 : (2 : ℚ) ≤ |(d : ℚ)| := by
    rw [← Int.cast_abs]
    exact_mod_cast hd
  have hr0 : (0 : ℚ) ≤ (cfg.adjustment_tax_symbol : ℚ) / 100 := by positivity
  rw [le_div_iff₀ (by linarith)]
  linarith

/-- C2 counterexample: at residual −3 with the default 23% adjustment rate the
adjustment net is `round(3 / 1.23) = 2`, whose recomputed gross is
`round(2 × 1.23) = 2`: the recomputed total is 2 grosze against a
`total_price` of 3 grosze — not an exact match. -/
theorem c2_counterexample :
    prepare_services defaultConfig shortfallOrder
        = [⟨"Wyrównanie (Shopify)", 23, 1, 2, none⟩]
    ∧ recomputed_total defaultConfig shortfallOrder = 2
    ∧ total_gross_grosze shortfallOrder = 3 := by
  norm_num [prepare_services, base_services, base_results, line_item_service,
    shipping_service, diff_grosze, calc_total_gross_grosze, total_gross_grosze,
    money_to_grosze, roundHalfUpZ, pick_vat_rate, rate_to_tax_symbol, line_name,
    py_str_or, defaultConfig, adjustment_entry, adjustment_net, shortfallOrder,
    recomputed_total, emitted_with_rates, entry_gross,
    List.filterMap_cons, List.filterMap_nil]

/-- C2 (amended): when `|diff| ≥ 2` exactly one adjustment entry is appended —
positive net for a shortfall, negative for an excess, at the configured
adjustment tax symbol — and the recomputed total then matches `total_price`
to within 1 grosz (not exactly); when `|diff| ≤ 1` no adjustment is
emitted. -/
theorem c2_adjustment_reconciliation (cfg : Config) (o : Order)
    (h0 : 0 ≤ cfg.adjustment_tax_symbol) (h1 : cfg.adjustment_tax_symbol ≤ 100) :
    (2 ≤ |diff_grosze cfg o| →
      prepare_services cfg o
          = base_services cfg o ++ [adjustment_entry cfg (diff_grosze cfg o)]
      ∧ (diff_grosze cfg o < 0 →
          0 < (adjustment_entry cfg (diff_grosze cfg o)).unit_net_price)
      ∧ (0 < diff_grosze cfg o →
          (adjustment_entry cfg (diff_grosze cfg o)).unit_net_price < 0)
      ∧ (adjustment_entry cfg (diff_grosze cfg o)).tax_symbol
          = cfg.adjustment_tax_symbol
      ∧ |recomputed_total cfg o - total_gross_grosze o| ≤ 1)
    ∧ (|diff_grosze cfg o| ≤ 1 → prepare_services cfg o = base_services cfg o) := by
  constructor
  · intro hc
    refine ⟨?_, ?_, ?_, rfl, c1_recomputed_total_within_one cfg o h0 h1⟩
    · unfold prepare_services
      rw [if_pos hc]
    · intro hneg
      show 0 < adjustment_net cfg (diff_grosze cfg o)
      unfold adjustment_net
      rw [if_neg (by omega)]
      have := one_le_adjustment_n cfg hc h0 h1
      omega
    · intro hpos
      show adjustment_net cfg (diff_grosze cfg o) < 0
      unfold adjustment_net
      rw [if_pos hpos]
      have := one_le_adjustment_n cfg hc h0 h1
      omega
  · intro hc
    unfold prepare_services
    rw [if_neg (by omega)]

/-- Witness for C2 at `shortfallOrder` (residual −3). -/
theorem c2_witness :
    prepare_services defaultConfig shortfallOrder
      = base_services defaultConfig shortfallOrder
        ++ [adjustment_entry defaultConfig (diff_grosze defaultConfig shortfallOrder)] :=
  ((c2_adjustment_reconciliation defaultConfig shortfallOrder
      (by norm_num [defaultConfig]) (by norm_num [defaultConfig])).1
    (by norm_num [diff_grosze, calc_total_gross_grosze, base_results,
      total_gross_grosze, money_to_grosze, roundHalfUpZ, shortfallOrder,
      defaultConfig])).1

/-- C6 counterexample: on `overstatedOrder` (total_price 3 grosze above the
computed line sum, i.e. `diff_grosze = -3`) the single adjustment entry has
unit_net_price `+2` — positive, not negative, and `round(2 × 1.23) = 2` closes
the 3-grosze gap only to within 1 grosz, not exactly. -/
theorem c6_counterexample :
    diff_grosze defaultConfig overstatedOrder = -3
    ∧ prepare_services defaultConfig overstatedOrder
        = [⟨"Gadget", 23, 1, 1000, none⟩, ⟨"Wyrównanie (Shopify)", 23, 1, 2, none⟩]
    ∧ 0 < (adjustment_entry defaultConfig (-3)).unit_net_price := by
  refine ⟨?_, ?_, ?_⟩ <;>
    norm_num [prepare_services, base_services, base_results, line_item_service,
      shipping_service, diff_grosze, calc_total_gross_grosze, total_gross_grosze,
      money_to_grosze, roundHalfUpZ, pick_vat_rate, rate_to_tax_symbol, line_name,
      py_str_or, defaultConfig, adjustment_entry, adjustment_net, overstatedOrder,
      List.filterMap_cons, List.filterMap_nil]
  all_goals decide

/-- C6 (amended): when `total_price` exceeds the computed sum by exactly 3
grosze, exactly one adjustment entry is appended, with quantity 1 and
*positive* unit_net_price `round(3 / (1 + adj_rate))`, which closes the
3-grosze gap to within 1 grosz. -/
theorem c6_overstated_by_three (cfg : Config) (o : Order)
    (h0 : 0 ≤ cfg.adjustment_tax_symbol) (h1 : cfg.adjustment_tax_symbol ≤ 100)
    (h3 : diff_grosze cfg o = -3) :
    prepare_services cfg o = base_services cfg o ++ [adjustment_entry cfg (-3)]
    ∧ (adjustment_entry cfg (-3)).quantity = 1
    ∧ (adjustment_entry cfg (-3)).unit_net_price
        = roundHalfUpZ ((3 : ℚ) / (1 + (cfg.adjustment_tax_symbol : ℚ) / 100))
    ∧ 0 < (adjustment_entry cfg (-3)).unit_net_price
    ∧ |recomputed_total cfg o - total_gross_grosze o| ≤ 1 := by
  refine ⟨?_, rfl, ?_, ?_, c1_recomputed_total_within_one cfg o h0 h1⟩
  · unfold prepare_services
    rw [h3, if_pos (by norm_num)]
  · show adjustment_net cfg (-3) = _
    unfold adjustment_net
    rw [if_neg (by norm_num)]
    norm_num
  · show 0 < adjustment_net cfg (-3)
    unfold adjustment_net
    rw [if_neg (by norm_num)]
    have := one_le_adjustment_n cfg (d := -3) (by norm_num) h0 h1
    omega

/-- Witness for C6 at `overstatedOrder` and the default configuration. -/
theorem c6_witness :
    prepare_services defaultConfig overstatedOrder
      = base_services defaultConfig overstatedOrder
        ++ [adjustment_entry defaultConfig (-3)] :=
  (c6_overstated_by_three defaultConfig overstatedOrder
    (by norm_num [defaultConfig]) (by norm_num [defaultConfig])
    (by norm_num [diff_grosze, calc_total_gross_grosze, base_results,
      line_item_service, shipping_service, total_gross_grosze, money_to_grosze,
      roundHalfUpZ, pick_vat_rate, rate_to_tax_symbol, overstatedOrder,
      defaultConfig, List.filterMap_cons, List.filterMap_nil])).1

/-- C3 counterexample: for `discountItem` (price 10.00, quantity 1, zero rate,
one 5.00 discount allocation) the source's line gross is 1000 grosze, while
the spec's claimed formula gives 500 grosze. -/
theorem c3_counterexample :
    (line_item_service defaultConfig false discountItem).map (fun p => p.2.2)
        = some 1000
    ∧ spec_line_gross discountItem = 500
    ∧ (line_item_service defaultConfig false discountItem).map (fun p => p.2.2)
        ≠ some (spec_line_gross discountItem) := by
  refine ⟨?_, ?_, ?_⟩ <;>
    norm_num [line_item_service, spec_line_gross, money_to_grosze, roundHalfUpZ,
      pick_vat_rate, rate_to_tax_symbol, line_name, py_str_or, defaultConfig,
      discountItem]

/-- C3 (amended): `discount_allocations` are ignored entirely; for a retained
line item the gross amount is `round(unit_net × quantity × (1 + rate))`, where
`unit_net` is the price in grosze, divided by `(1 + rate)` and rounded when
taxes are included. -/
theorem c3_line_gross (cfg : Config) (ti : Bool) (item : LineItem)
    (hq : 0 < item.quantity) :
    line_item_service cfg ti item
        = line_item_service cfg ti { item with discount_allocations := [] }
    ∧ (line_item_service cfg ti item).map (fun p => p.2.2)
        = some (roundHalfUpZ
            ((((if ti then roundHalfUpZ ((money_to_grosze (item.price.getD 0) : ℚ)
                  / (1 + pick_vat_rate item.tax_lines (23/100)))
               else money_to_grosze (item.price.getD 0)) : ℤ) : ℚ)
              * (item.quantity : ℚ) * (1 + pick_vat_rate item.tax_lines (23/100)))) := by
  constructor
  · rfl
  · unfold line_item_service
    rw [if_neg (not_le.2 hq)]
    rfl

/-- Witness for C3 at `discountItem`. -/
theorem c3_witness :
    line_item_service defaultConfig false discountItem
      = line_item_service defaultConfig false
          { discountItem with discount_allocations := [] } :=
  (c3_line_gross defaultConfig false discountItem (by norm_num [discountItem])).1

/-- C7 counterexample: `discountedShipLine` has a discounted price of 0.00
(grossing to 0 ≤ 0, so per the claim no entry should be emitted), yet
`prepare_services` emits a shipping entry, built from the 10.00 list price. -/
theorem c7_counterexample :
    money_to_grosze (spec_ship_preferred_price discountedShipLine) = 0
    ∧ prepare_services defaultConfig discountedShipOrder
        = [⟨"Wysyłka - Dostawa", 23, 1, 1000, none⟩] := by
  constructor <;>
    norm_num [prepare_services, base_services, base_results, line_item_service,
      shipping_service, diff_grosze, calc_total_gross_grosze, total_gross_grosze,
      money_to_grosze, roundHalfUpZ, pick_vat_rate, rate_to_tax_symbol, line_name,
      py_str_or, defaultConfig, adjustment_entry, adjustment_net,
      spec_ship_preferred_price, discountedShipLine, discountedShipOrder,
      List.filterMap_cons, List.filterMap_nil]
  all_goals decide

/-- C7 (amended): shipping entries are built from the `price` field alone
(`discounted_price` is ignored); no entry is emitted iff the price in grosze
is ≤ 0; an emitted entry has quantity 1 and the same net/tax derivation as a
line item applied to the shipping price. -/
theorem c7_shipping (cfg : Config) (ti : Bool) (s : ShippingLine) :
    shipping_service cfg ti s
        = shipping_service cfg ti { s with discounted_price := none }
    ∧ (shipping_service cfg ti s = none ↔ money_to_grosze (s.price.getD 0) ≤ 0)
    ∧ ∀ p, shipping_service cfg ti s = some p →
        p.1.quantity = 1
        ∧ p.1.unit_net_price
            = (if ti then roundHalfUpZ ((money_to_grosze (s.price.getD 0) : ℚ)
                  / (1 + pick_vat_rate s.tax_lines (23/100)))
               else money_to_grosze (s.price.getD 0))
        ∧ p.1.tax_symbol = rate_to_tax_symbol (pick_vat_rate s.tax_lines (23/100)) := by
  refine ⟨rfl, ?_, ?_⟩
  · by_cases hp : money_to_grosze (s.price.getD 0) ≤ 0
    · simp [shipping_service, hp]
    · simp [shipping_service, hp]
  · intro p hp
    simp only [shipping_service] at hp
    by_cases h : money_to_grosze (s.price.getD 0) ≤ 0
    · rw [if_pos h] at hp
      exact absurd hp (by simp)
    · rw [if_neg h] at hp
      obtain rfl := Option.some.inj hp
      exact ⟨rfl, rfl, rfl⟩

/-- Witness for C7 at `discountedShipLine`, which yields an entry. -/
theorem c7_witness :
    (⟨"Wysyłka - Dostawa", 23, 1, 1000, none⟩ : ServiceEntry).quantity = 1 :=
  ((c7_shipping defaultConfig false discountedShipLine).2.2
    (⟨"Wysyłka - Dostawa", 23, 1, 1000, none⟩, 23/100, 1230)
    (by norm_num [shipping_service, money_to_grosze, roundHalfUpZ, pick_vat_rate,
      rate_to_tax_symbol, py_str_or, defaultConfig, discountedShipLine]
        all_goals decide)).1

theorem tax_symbol_line {cfg : Config} {ti : Bool} {item : LineItem}
    {p : ServiceEntry × ℚ × ℤ} (h : line_item_service cfg ti item = some p) :
    p.1.tax_symbol = rate_to_tax_symbol p.2.1 := by
  unfold line_item_service at h
  split at h
  · exact absurd h (by simp)
  · obtain rfl := Option.some.inj h
    rfl

theorem tax_symbol_ship {cfg : Config} {ti : Bool} {s : ShippingLine}
    {p : ServiceEntry × ℚ × ℤ} (h : shipping_service cfg ti s = some p) :
    p.1.tax_symbol = rate_to_tax_symbol p.2.1 := by
  simp only [shipping_service] at h
  by_cases hp : money_to_grosze (s.price.getD 0) ≤ 0
  · rw [if_pos hp] at h
    exact absurd h (by simp)
  · rw [if_neg hp] at h
    obtain rfl := Option.some.inj h
    rfl

/-- C8 (amended): every emitted entry's tax symbol is its VAT rate times 100
rounded half-up to an integer — the adjustment entry included, whose symbol is
exactly the configured integer.  The zero rate maps to symbol 0 under the same
rule; there is no reserved code for zero/exempt rates. -/
theorem c8_tax_symbol (cfg : Config) (o : Order) :
    (∀ p ∈ emitted_with_rates cfg o, p.1.tax_symbol = rate_to_tax_symbol p.2)
    ∧ rate_to_tax_symbol 0 = 0 := by
  constructor
  · intro p hp
    unfold emitted_with_rates at hp
    rcases List.mem_append.1 hp with h | h
    · rcases List.mem_map.1 h with ⟨q, hq, rfl⟩
      unfold base_results at hq
      rcases List.mem_append.1 hq with h2 | h2
      · rcases List.mem_filterMap.1 h2 with ⟨a, _, ha⟩
        exact tax_symbol_line ha
      · rcases List.mem_filterMap.1 h2 with ⟨a, _, ha⟩
        exact tax_symbol_ship ha
    · have hm : p = (adjustment_entry cfg (diff_grosze cfg o),
          (cfg.adjustment_tax_symbol : ℚ) / 100) := by
        by_cases hc : 2 ≤ |diff_grosze cfg o|
        · rw [if_pos hc] at h
          simpa using h
        · rw [if_neg hc] at h
          simp at h
      rw [hm]
      show cfg.adjustment_tax_symbol = rate_to_tax_symbol ((cfg.adjustment_tax_symbol : ℚ) / 100)
      unfold rate_to_tax_symbol
      rw [div_mul_cancel₀ _ (by norm_num : (100 : ℚ) ≠ 0), roundHalfUpZ_intCast]
  · unfold rate_to_tax_symbol
    rw [zero_mul]
    exact roundHalfUpZ_intCast 0

/-- C8 counterexample: the zero-rate entry of `zeroRateOrder` gets tax symbol
0 — produced by the generic integer-percentage rule, which also maps the
nonzero rate 0.1% to 0: no reserved code marks zero/exempt rates. -/
theorem c8_counterexample :
    (prepare_services defaultConfig zeroRateOrder).map (fun e => e.tax_symbol) = [0]
    ∧ rate_to_tax_symbol 0 = 0
    ∧ rate_to_tax_symbol (1/1000) = 0 := by
  refine ⟨?_, ?_, ?_⟩ <;>
    norm_num [prepare_services, base_services, base_results, line_item_service,
      shipping_service, diff_grosze, calc_total_gross_grosze, total_gross_grosze,
      money_to_grosze, roundHalfUpZ, pick_vat_rate, rate_to_tax_symbol, line_name,
      py_str_or, defaultConfig, adjustment_entry, adjustment_net, zeroRateOrder,
      List.filterMap_cons, List.filterMap_nil]

/-- Witness for C8 at the zero-rate entry of `zeroRateOrder`. -/
theorem c8_witness :
    (⟨"Ebook", 0, 1, 1000, none⟩ : ServiceEntry).tax_symbol
      = rate_to_tax_symbol 0 :=
  (c8_tax_symbol defaultConfig zeroRateOrder).1
    (⟨"Ebook", 0, 1, 1000, none⟩, 0)
    (by norm_num [emitted_with_rates, base_results, line_item_service,
      shipping_service, diff_grosze, calc_total_gross_grosze, total_gross_grosze,
      money_to_grosze, roundHalfUpZ, pick_vat_rate, rate_to_tax_symbol, line_name,
      py_str_or, defaultConfig, zeroRateOrder,
      List.filterMap_cons, List.filterMap_nil]
        all_goals decide)

theorem raw_items_loop_error {cfg : Config} {ti : Bool} {l : List RawLineItem}
    (h : ∃ i ∈ l, 0 < i.quantity ∧ i.price = RawMoney.invalid) :
    raw_items_loop cfg ti l = .error () := by
  induction l with
  | nil => simp at h
  | cons a as ih =>
    rcases h with ⟨i, hi, hq, hp⟩
    rcases List.mem_cons.1 hi with rfl | hmem
    · have ha : line_item_service_raw cfg ti i = .error () := by
        unfold line_item_service_raw
        rw [if_neg (by omega), hp]
        rfl
      unfold raw_items_loop
      rw [ha]
    · have has := ih ⟨i, hmem, hq, hp⟩
      unfold raw_items_loop
      rw [has]
      cases hla : line_item_service_raw cfg ti a
      · rfl
      · rfl

theorem prepare_services_raw_error {cfg : Config} {o : RawOrder}
    (h : ∃ i ∈ o.line_items, 0 < i.quantity ∧ i.price = RawMoney.invalid) :
    prepare_services_raw cfg o = .error () := by
  unfold prepare_services_raw
  rw [raw_items_loop_error h]

theorem create_invoice_raw_no_send {cfg : Config} {o : RawOrder}
    (herr : prepare_services_raw cfg o = .error ()) (p : InvoicePayload) :
    create_invoice_raw cfg o ≠ some (.ok p) := by
  unfold create_invoice_raw
  split
  · simp
  · split
    · rename_i e heq
      show (if str_lower (o.financial_status.getD "") = "paid"
              ∨ str_lower (o.financial_status.getD "") = "partially_paid"
            then some (Except.error e) else none) ≠ some (Except.ok p)
      split <;> simp
    · rename_i s heq
      rw [herr] at heq
      exact absurd heq (by simp)

/-- C4 (amended): there is no ValidationError.  A missing `id` or missing
`created_at` does not fail: the payload is still built and sent, with an empty
`external_id` and the runtime current-date fallback as sell date.  A
non-numeric price on a retained line item raises an unhandled exception while
the payload is being built, so no payload is sent for such an order — but no
error value identifying the offending field is produced. -/
theorem c4_no_validation_error :
    (∀ (cfg : Config) (o : Order),
      (should_skip_order cfg o).1 = false →
      str_lower (o.financial_status.getD "") = "paid" →
      o.id = none → o.created_at = none → o.processed_at = none →
      create_invoice_payload cfg o
        = some { external_id := "", sell_date := none
                 currency := o.currency.getD "PLN"
                 services := prepare_services cfg o })
    ∧ (∀ (cfg : Config) (o : RawOrder),
        (∃ i ∈ o.line_items, 0 < i.quantity ∧ i.price = RawMoney.invalid) →
        prepare_services_raw cfg o = .error ()
        ∧ ∀ p, create_invoice_raw cfg o ≠ some (.ok p)) := by
  constructor
  · intro cfg o hskip hfs hid hcr hpr
    unfold create_invoice_payload
    rw [hskip]
    simp only [Bool.false_eq_true, if_false, hfs, hid, hcr, hpr]
    rw [if_pos (Or.inl trivial)]
    rfl
  · intro cfg o h
    refine ⟨prepare_services_raw_error h, fun p => ?_⟩
    exact create_invoice_raw_no_send (prepare_services_raw_error h) p

/-- C4 counterexample: `noIdOrder` has no `id` and no `created_at`, yet
`create_invoice_payload` produces a payload (which `create_invoice` then
POSTs) instead of failing with a ValidationError. -/
theorem c4_counterexample :
    noIdOrder.id = none
    ∧ noIdOrder.created_at = none
    ∧ (create_invoice_payload defaultConfig noIdOrder).isSome = true := by
  refine ⟨rfl, rfl, ?_⟩
  decide

/-- Witness for C4 at `noIdOrder` and `invalidPriceOrder`. -/
theorem c4_witness :
    create_invoice_payload defaultConfig noIdOrder
        = some { external_id := "", sell_date := none
                 currency := noIdOrder.currency.getD "PLN"
                 services := prepare_services defaultConfig noIdOrder }
    ∧ prepare_services_raw defaultConfig invalidPriceOrder = Except.error ()
    ∧ ∀ p, create_invoice_raw defaultConfig invalidPriceOrder ≠ some (Except.ok p) :=
  ⟨c4_no_validation_error.1 defaultConfig noIdOrder (by decide) (by decide) rfl rfl rfl,
   (c4_no_validation_error.2 defaultConfig invalidPriceOrder
      ⟨invalidPriceItem, by simp [invalidPriceOrder], by norm_num [invalidPriceItem], rfl⟩).1,
   (c4_no_validation_error.2 defaultConfig invalidPriceOrder
      ⟨invalidPriceItem, by simp [invalidPriceOrder], by norm_num [invalidPriceItem], rfl⟩).2⟩

end ShopifyInfakt
